import Mathlib

/-!
# Verification of the quickuuid UUID-generator core

Shallow embedding, in Lean 4, of the core logic of the quickuuid
repository, together with theorems settling the specification claims.

Embedded components and their sources:
* `FormatUtils` (`src/lib/format-utils.ts`): `formatUUIDs`, `formatSingleUUID`.
* `UUIDGenerator` (`src/lib/uuid-generator.ts`): `generateUUIDs`,
  `generateUUIDBatch`, `generateBatch`, `generateV4UUID`,
  `getFallbackGenerator`, `isSupported`.
* `StorageUtils` (`src/lib/storage-utils.ts`): `savePreferences`,
  `loadPreferences`, `filterNonDefaultValues`, `validateAndMigrate`.
* `PerformanceMonitor` (`src/lib/performance-utils.ts`):
  `checkPerformanceAlerts`, `addAlert`, `getAlerts`, `getHealthStatus`.
* `useUUIDGenerator` hook (`src/hooks/use-uuid-generator.ts`):
  `regenerateInternal`, the format-options effect, `copyAll`, `copySingle`.

Modelling conventions:
* JS numbers are embedded as `ℚ` where fractional values are observable
  (UUID counts, durations), and as `ℕ` where the code only ever produces
  naturals (loop indices, byte values).  Byte values carry an explicit
  `< 256` hypothesis where it matters.
* JS exceptions become `Except String`, carrying the exact `Error` message
  thrown by the source.
* The browser randomness primitives (`crypto.randomUUID`,
  `crypto.getRandomValues`, `Math.random`) are modelled as streams indexed
  by a cursor that each call advances, so generation is deterministic in
  the environment.
* String operations: the JS global-regex replacement that deletes every
  hyphen is a character filter,
  `toUpperCase`/`toLowerCase` act per character (all strings involved are
  ASCII), `Array.join(sep)` is `String.intercalate sep`.
-/

set_option maxRecDepth 4000

namespace QuickUUID

/-! ## Formatter (`src/lib/format-utils.ts`) -/

/-- `FormatOptions` from `src/types/index.ts`. -/
structure FormatOptions where
  includeHyphens : Bool
  includeBraces : Bool
  includeQuotes : Bool
  upperCase : Bool
  separateWithCommas : Bool
deriving DecidableEq

/-- `FormatUtils.formatSingleUUID`: strip hyphens unless `includeHyphens`,
then force upper or lower case, then wrap in quotes, then wrap in braces
(braces outermost). -/
def formatSingleUUID (uuid : String) (options : FormatOptions) : String :=
  let f1 := if options.includeHyphens then uuid
            else String.mk (uuid.toList.filter (fun c => c ≠ '-'))
  let f2 := if options.upperCase then String.mk (f1.toList.map Char.toUpper)
            else String.mk (f1.toList.map Char.toLower)
  let f3 := if options.includeQuotes then "\"" ++ f2 ++ "\"" else f2
  if options.includeBraces then "\x7b" ++ f3 ++ "\x7d" else f3

/-- `FormatUtils.formatUUIDs`: empty input yields `""`; otherwise map
`formatSingleUUID` and join with `","` (a single comma — the source joins
with a bare comma, not comma-space) when `separateWithCommas` and more
than one identifier, else join with a newline. -/
def formatUUIDs (uuids : List String) (options : FormatOptions) : String :=
  if uuids.length = 0 then ""
  else
    let formattedUUIDs := uuids.map (fun uuid => formatSingleUUID uuid options)
    if options.separateWithCommas ∧ uuids.length > 1 then
      String.intercalate "," formattedUUIDs
    else
      String.intercalate "\n" formattedUUIDs


/-! ## Identifier generator (`src/lib/uuid-generator.ts`) -/

/-- UUID version strings admitted by the `UUIDGeneratorConfig` type. -/
inductive UUIDVersion where
  | v1
  | v4
deriving DecidableEq

/-- The literal version string, as it appears in error messages. -/
def versionName : UUIDVersion → String
  | .v1 => "v1"
  | .v4 => "v4"

/-- Theme strings admitted by the `UUIDGeneratorConfig` type. -/
inductive Theme where
  | light
  | dark
  | system
deriving DecidableEq

/-- `UUIDGeneratorConfig` from `src/types/index.ts`.  `count` is a JS
number, so it is embedded as `ℚ`: the generator itself never checks
integrality and fractional counts are observable. -/
structure UUIDGeneratorConfig where
  count : ℚ
  version : UUIDVersion
  includeHyphens : Bool
  includeBraces : Bool
  includeQuotes : Bool
  upperCase : Bool
  separateWithCommas : Bool
  theme : Theme
  autoCopy : Bool
deriving DecidableEq

/-- `defaultConfig` from `src/types/index.ts`. -/
def defaultConfig : UUIDGeneratorConfig :=
  { count := 1
    version := .v4
    includeHyphens := true
    includeBraces := false
    includeQuotes := false
    upperCase := false
    separateWithCommas := false
    theme := .system
    autoCopy := false }

/-- The browser randomness environment.  `crypto.randomUUID`,
`crypto.getRandomValues` and `Math.random` are modelled as streams of
values indexed by the number of values consumed so far.
`mathRandom16` is the value of the JS expression
`Math.random() * 16 | 0`, hence always `< 16`. -/
structure CryptoEnv where
  hasRandomUUID : Bool
  nativeRandomUUID : Nat → String
  hasGetRandomValues : Bool
  randomByte : Nat → Nat
  mathRandom16 : Nat → Nat

/-- Position of each randomness stream: how many values of each stream
have been consumed. -/
structure RngCursor where
  nativeOff : Nat
  byteOff : Nat
  mathOff : Nat
deriving DecidableEq

/-- `UUIDGenerator.isSupported`: `crypto.randomUUID` or
`crypto.getRandomValues` is a function. -/
def isSupported (env : CryptoEnv) : Bool :=
  env.hasRandomUUID || env.hasGetRandomValues

/-- Number of iterations of the JS loop `for (let i = 0; i < count; i++)`
for a (possibly fractional) JS number `count`: the naturals `i` with
`(i : ℚ) < count` are exactly those `< ⌈count⌉₊` (`Nat.lt_ceil`). -/
def jsLoopIters (count : ℚ) : Nat := Nat.ceil count

/-- One lowercase hex digit: `n.toString(16)` for a nibble `n < 16`. -/
def hexDigit (n : Nat) : Char :=
  if n < 10 then Char.ofNat (48 + n) else Char.ofNat (87 + n)

/-- JS `byte.toString(16).padStart(2, "0")` for a byte value `b < 256`:
high nibble then low nibble. -/
def byteToHex (b : Nat) : List Char := [hexDigit (b / 16), hexDigit (b % 16)]

/-- Set the version bits (byte 6) and variant bits (byte 8), as in
`bytes[6] = (bytes[6] & 0x0f) | 0x40; bytes[8] = (bytes[8] & 0x3f) | 0x80`. -/
def setVersionVariant (bytes : List Nat) : List Nat :=
  let b1 := bytes.set 6 ((bytes.getD 6 0) &&& 0x0f ||| 0x40)
  b1.set 8 ((b1.getD 8 0) &&& 0x3f ||| 0x80)

/-- Hex-encode a byte array: `Array.from(bytes, b => hex(b)).join("")`. -/
def hexConcat (bytes : List Nat) : List Char := (bytes.map byteToHex).flatten

/-- Insert hyphens: `[hex.slice(0,8), hex.slice(8,12), hex.slice(12,16),
hex.slice(16,20), hex.slice(20,32)].join("-")`. -/
def hyphenated (hex : List Char) : List Char :=
  (hex.take 8) ++ '-' :: ((hex.drop 8).take 4) ++ '-' :: ((hex.drop 12).take 4)
    ++ '-' :: ((hex.drop 16).take 4) ++ '-' :: ((hex.drop 20).take 12)

/-- The crypto branch of `UUIDGenerator.generateV4UUID` and the per-item
body of the `crypto.getRandomValues` branch of `generateBatch`: 16 random
bytes, version/variant bits forced, hex-encoded, hyphenated. -/
def uuidFromBytes (bytes : List Nat) : String :=
  String.mk (hyphenated (hexConcat (setVersionVariant bytes)))

/-- The `Math.random` template replacement in `generateV4UUID`: each `x`
in the template becomes a random nibble, each `y` becomes
`(r & 0x3) | 0x8`, other characters are kept.  `k` indexes the
`Math.random` stream. -/
def fillTemplate (rnd : Nat → Nat) : Nat → List Char → List Char
  | _, [] => []
  | k, c :: rest =>
    if c = 'x' then hexDigit (rnd k) :: fillTemplate rnd (k + 1) rest
    else if c = 'y' then hexDigit ((rnd k) &&& 0x3 ||| 0x8) :: fillTemplate rnd (k + 1) rest
    else c :: fillTemplate rnd k rest

/-- The v4 template literal from `generateV4UUID`. -/
def v4Template : String := "xxxxxxxx-xxxx-4xxx-yxxx-xxxxxxxxxxxx"

/-- The `Math.random` last-resort branch of `generateV4UUID`; it consumes
31 `Math.random` values (one per `x`/`y` in the template). -/
def mathRandomUUID (rnd : Nat → Nat) (k : Nat) : String :=
  String.mk (fillTemplate rnd k v4Template.toList)

/-- `UUIDGenerator.generateV4UUID`: `crypto.getRandomValues` when
available (consuming 16 bytes), otherwise the `Math.random` template
(consuming 31 values). -/
def generateV4UUID (env : CryptoEnv) (cur : RngCursor) : String × RngCursor :=
  if env.hasGetRandomValues then
    ( uuidFromBytes ((List.range 16).map (fun i => env.randomByte (cur.byteOff + i)))
    , { cur with byteOff := cur.byteOff + 16 } )
  else
    ( mathRandomUUID env.mathRandom16 cur.mathOff
    , { cur with mathOff := cur.mathOff + 31 } )

/-- A JS loop pushing `generateV4UUID()` results `n` times, threading the
randomness cursor (used by `getFallbackGenerator` and the last fallback
of `generateBatch`). -/
def generateV4List (env : CryptoEnv) : Nat → RngCursor → List String × RngCursor
  | 0, cur => ([], cur)
  | n + 1, cur =>
    let p := generateV4UUID env cur
    let rest := generateV4List env n p.2
    (p.1 :: rest.1, rest.2)

/-- `UUIDGenerator.getFallbackGenerator`: the returned closure generates
`count` identifiers via `generateV4UUID`. -/
def getFallbackGenerator (env : CryptoEnv) (cur : RngCursor) (count : ℚ) : List String :=
  (generateV4List env (jsLoopIters count) cur).1

/-- Error message of the count guard in `generateUUIDs`. -/
def countErrorMsg : String := "Count must be between 1 and 1000"

/-- Error message thrown when `isSupported()` is false. -/
def cryptoUnavailableMsg : String := "Crypto API unavailable"

/-- Error message for a non-v4 version request. -/
def unsupportedVersionMsg (v : UUIDVersion) : String :=
  "UUID version " ++ versionName v ++ " not supported yet"

/-- The `for` loop of `generateUUIDs` for counts `≤ 100`: per iteration,
a non-v4 version throws; otherwise `crypto.randomUUID` if available, else
`generateV4UUID`. -/
def generateLoop (env : CryptoEnv) (version : UUIDVersion) :
    Nat → RngCursor → Except String (List String)
  | 0, _ => .ok []
  | n + 1, cur =>
    match version with
    | .v4 =>
      if env.hasRandomUUID then
        match generateLoop env version n { cur with nativeOff := cur.nativeOff + 1 } with
        | .ok rest => .ok (env.nativeRandomUUID cur.nativeOff :: rest)
        | .error e => .error e
      else
        let p := generateV4UUID env cur
        match generateLoop env version n p.2 with
        | .ok rest => .ok (p.1 :: rest)
        | .error e => .error e
    | v => .error (unsupportedVersionMsg v)

/-- `UUIDGenerator.generateBatch`: one chunk of `cnt` identifiers.
Preference order: `crypto.randomUUID` per item; else one batched
`crypto.getRandomValues` fill of `cnt * 16` bytes sliced per item (item
`i` uses bytes `16 i .. 16 i + 15` of the fill); else per-item
`generateV4UUID`. -/
def generateBatch (env : CryptoEnv) (cnt : ℚ) (version : UUIDVersion) (cur : RngCursor) :
    Except String (List String × RngCursor) :=
  if version ≠ .v4 then .error (unsupportedVersionMsg version)
  else if env.hasRandomUUID then
    .ok ( (List.range (jsLoopIters cnt)).map (fun i => env.nativeRandomUUID (cur.nativeOff + i))
        , { cur with nativeOff := cur.nativeOff + jsLoopIters cnt } )
  else if env.hasGetRandomValues then
    .ok ( (List.range (jsLoopIters cnt)).map (fun i =>
            uuidFromBytes ((List.range 16).map (fun j => env.randomByte (cur.byteOff + 16 * i + j))))
        , { cur with byteOff := cur.byteOff + 16 * jsLoopIters cnt } )
  else
    .ok (generateV4List env (jsLoopIters cnt) cur)

/-- The `for` loop of `generateUUIDBatch` over batch indices.  The source
iterates `batchIndex` from `0` to `batches - 1`; here the remaining
iteration count `batches - batchIndex` is the structural fuel.  The
cooperative `setTimeout(.., 0)` yield between chunks has no effect on the
produced value and is not modelled. -/
def batchLoop (env : CryptoEnv) (config : UUIDGeneratorConfig) :
    Nat → Nat → RngCursor → Except String (List String)
  | _, 0, _ => .ok []
  | batchIndex, fuel + 1, cur =>
    let startIndex : ℚ := (batchIndex : ℚ) * 50
    let endIndex : ℚ := min (startIndex + 50) config.count
    let currentBatchSize : ℚ := endIndex - startIndex
    match generateBatch env currentBatchSize config.version cur with
    | .error e => .error e
    | .ok p =>
      match batchLoop env config (batchIndex + 1) fuel p.2 with
      | .error e => .error e
      | .ok rest => .ok (p.1 ++ rest)

/-- `UUIDGenerator.generateUUIDBatch`: `Math.ceil(count / 50)` chunks of
(at most) 50. -/
def generateUUIDBatch (env : CryptoEnv) (cur : RngCursor) (config : UUIDGeneratorConfig) :
    Except String (List String) :=
  batchLoop env config 0 (jsLoopIters (config.count / 50)) cur

/-- `UUIDGenerator.generateUUIDs`: validate the count, require a crypto
API, dispatch to the batch path for counts `> 100`, else the plain loop. -/
def generateUUIDs (env : CryptoEnv) (cur : RngCursor) (config : UUIDGeneratorConfig) :
    Except String (List String) :=
  if config.count < 1 ∨ config.count > 1000 then .error countErrorMsg
  else if isSupported env = false then .error cryptoUnavailableMsg
  else if config.count > 100 then generateUUIDBatch env cur config
  else generateLoop env config.version (jsLoopIters config.count) cur

/-! ### The canonical-v4 shape

`isCanonicalV4` is the specification-side predicate the claims use:
lowercase hyphenated 8-4-4-4-12 hex, version nibble `4` (position 14),
variant character in `{8, 9, a, b}` (position 19). -/

/-- Lowercase hex digit. -/
def isHexL (c : Char) : Bool :=
  (decide ('0' ≤ c) && decide (c ≤ '9')) || (decide ('a' ≤ c) && decide (c ≤ 'f'))

/-- Canonical lowercase v4 form (spec wording: "lowercase hyphenated
8-4-4-4-12 hex with version nibble 4 and variant nibble in 8/9/a/b"):
exactly 36 characters, hyphens at positions 8/13/18/23, every other
position a lowercase hex digit, position 14 (the version nibble) equal to
`4`, position 19 (the variant nibble) in `{8, 9, a, b}`. -/
def isCanonicalV4 (s : String) : Bool :=
  match s.toList with
  | a0 :: a1 :: a2 :: a3 :: a4 :: a5 :: a6 :: a7 :: '-' :: b0 :: b1 :: b2 :: b3 :: '-' ::
    c0 :: c1 :: c2 :: c3 :: '-' :: d0 :: d1 :: d2 :: d3 :: '-' ::
    e0 :: e1 :: e2 :: e3 :: e4 :: e5 :: e6 :: e7 :: e8 :: e9 :: e10 :: e11 :: [] =>
    ([a0, a1, a2, a3, a4, a5, a6, a7, b0, b1, b2, b3, c0, c1, c2, c3,
      d0, d1, d2, d3, e0, e1, e2, e3, e4, e5, e6, e7, e8, e9, e10, e11].all isHexL)
      && (c0 == '4')
      && ((d0 == '8') || (d0 == '9') || (d0 == 'a') || (d0 == 'b'))
  | _ => false

/-! ## Persisted preferences (`src/lib/storage-utils.ts`)

`localStorage` holds at most one string at the preferences key, modelled
as `Option String`.  `JSON.parse` and `JSON.stringify` are platform
primitives, passed in as parameters (`parse` may fail, modelling the
exception on malformed input). -/

/-- A parsed JSON value.  JSON numbers are JS numbers, embedded as `ℚ`. -/
inductive Json where
  | null
  | bool (b : Bool)
  | num (q : ℚ)
  | str (s : String)
  | arr (elems : List Json)
  | obj (fields : List (String × Json))

/-- JS property access `j[k]`: `none` when `j` is not an object or lacks
the key (JS `undefined`). -/
def jsGet (j : Json) (k : String) : Option Json :=
  match j with
  | .obj fields =>
    match fields.find? (fun p => p.1 == k) with
    | some p => some p.2
    | none => none
  | _ => none

/-- JS falsiness of a JSON value (`undefined` is handled by the caller). -/
def jsFalsy : Json → Bool
  | .null => true
  | .bool b => !b
  | .num q => q == 0
  | .str s => s == ""
  | _ => false

/-- The expression `preferences.config || {}` in `loadPreferences`. -/
def configOrEmpty (j : Json) : Json :=
  match jsGet j "config" with
  | none => .obj []
  | some v => if jsFalsy v then .obj [] else v

/-- `Partial<UUIDGeneratorConfig>`: each field present or absent.
`count` is a JS number (`ℚ`) — `validateAndMigrate` does not require it
to be an integer. -/
structure ConfigDelta where
  count : Option ℚ
  version : Option UUIDVersion
  includeHyphens : Option Bool
  includeBraces : Option Bool
  includeQuotes : Option Bool
  upperCase : Option Bool
  separateWithCommas : Option Bool
  theme : Option Theme
  autoCopy : Option Bool
deriving DecidableEq

/-- The empty partial configuration `{}`. -/
def ConfigDelta.empty : ConfigDelta :=
  ⟨none, none, none, none, none, none, none, none, none⟩

/-- `StorageUtils.validateAndMigrate`: field-by-field validation of a
loaded (parsed) `config` object.  `count` must be a number in
`[1, 1000]`; `version` must be the string `v1` or `v4`; the five format
flags and `autoCopy` must be booleans; `theme` must be `light`, `dark`
or `system`.  Each failing field is dropped individually. -/
def validateAndMigrate (config : Json) : ConfigDelta :=
  { count :=
      match jsGet config "count" with
      | some (.num q) => if 1 ≤ q ∧ q ≤ 1000 then some q else none
      | _ => none
    version :=
      match jsGet config "version" with
      | some (.str s) =>
        if s = "v1" then some .v1 else if s = "v4" then some .v4 else none
      | _ => none
    includeHyphens :=
      match jsGet config "includeHyphens" with
      | some (.bool b) => some b
      | _ => none
    includeBraces :=
      match jsGet config "includeBraces" with
      | some (.bool b) => some b
      | _ => none
    includeQuotes :=
      match jsGet config "includeQuotes" with
      | some (.bool b) => some b
      | _ => none
    upperCase :=
      match jsGet config "upperCase" with
      | some (.bool b) => some b
      | _ => none
    separateWithCommas :=
      match jsGet config "separateWithCommas" with
      | some (.bool b) => some b
      | _ => none
    theme :=
      match jsGet config "theme" with
      | some (.str s) =>
        if s = "light" then some .light
        else if s = "dark" then some .dark
        else if s = "system" then some .system
        else none
      | _ => none
    autoCopy :=
      match jsGet config "autoCopy" with
      | some (.bool b) => some b
      | _ => none }

/-- `StorageUtils.loadPreferences`: `{}` when storage is unavailable, the
key is missing (or holds the empty string, which JS `!stored` also
treats as missing), or `JSON.parse` throws; otherwise field-validate
`parsed.config || {}`.  Total by construction: it never throws. -/
def loadPreferences (available : Bool) (stored : Option String)
    (parse : String → Except String Json) : ConfigDelta :=
  if available = false then .empty
  else
    match stored with
    | none => .empty
    | some s =>
      if s = "" then .empty
      else
        match parse s with
        | .error _ => .empty
        | .ok j => validateAndMigrate (configOrEmpty j)

/-- `StorageUtils.filterNonDefaultValues`: keep exactly the fields that
differ from `defaultConfig`. -/
def filterNonDefaultValues (config : UUIDGeneratorConfig) : ConfigDelta :=
  { count := if config.count ≠ defaultConfig.count then some config.count else none
    version := if config.version ≠ defaultConfig.version then some config.version else none
    includeHyphens :=
      if config.includeHyphens ≠ defaultConfig.includeHyphens then some config.includeHyphens
      else none
    includeBraces :=
      if config.includeBraces ≠ defaultConfig.includeBraces then some config.includeBraces
      else none
    includeQuotes :=
      if config.includeQuotes ≠ defaultConfig.includeQuotes then some config.includeQuotes
      else none
    upperCase :=
      if config.upperCase ≠ defaultConfig.upperCase then some config.upperCase else none
    separateWithCommas :=
      if config.separateWithCommas ≠ defaultConfig.separateWithCommas then
        some config.separateWithCommas
      else none
    theme := if config.theme ≠ defaultConfig.theme then some config.theme else none
    autoCopy := if config.autoCopy ≠ defaultConfig.autoCopy then some config.autoCopy else none }

/-- The literal theme string. -/
def themeName : Theme → String
  | .light => "light"
  | .dark => "dark"
  | .system => "system"

/-- The JSON object produced for a partial config, keys in the iteration
order of `Object.entries` on a `UUIDGeneratorConfig` (its literal key
order), absent fields omitted. -/
def deltaToJson (p : ConfigDelta) : Json :=
  .obj
    ((match p.count with | some q => [("count", Json.num q)] | none => []) ++
     (match p.version with | some v => [("version", Json.str (versionName v))] | none => []) ++
     (match p.includeHyphens with
      | some b => [("includeHyphens", Json.bool b)] | none => []) ++
     (match p.includeBraces with | some b => [("includeBraces", Json.bool b)] | none => []) ++
     (match p.includeQuotes with | some b => [("includeQuotes", Json.bool b)] | none => []) ++
     (match p.upperCase with | some b => [("upperCase", Json.bool b)] | none => []) ++
     (match p.separateWithCommas with
      | some b => [("separateWithCommas", Json.bool b)] | none => []) ++
     (match p.theme with | some t => [("theme", Json.str (themeName t))] | none => []) ++
     (match p.autoCopy with | some b => [("autoCopy", Json.bool b)] | none => []))

/-- `SCHEMA_VERSION` from `src/lib/storage-utils.ts`. -/
def schemaVersion : String := "1.0.0"

/-- The `StoredPreferences` JSON blob written by `savePreferences`:
`{version, config, lastUsed}`. -/
def storedBlob (config : UUIDGeneratorConfig) (now : String) : Json :=
  .obj
    [("version", .str schemaVersion),
     ("config", deltaToJson (filterNonDefaultValues config)),
     ("lastUsed", .str now)]

/-- `StorageUtils.savePreferences`: on available storage, serialize the
non-default diff wrapped with schema version and timestamp, and write it.
Returns the written storage content and the success flag. -/
def savePreferences (available : Bool) (stringify : Json → String)
    (config : UUIDGeneratorConfig) (now : String) : Option String × Bool :=
  if available = false then (none, false)
  else (some (stringify (storedBlob config now)), true)

/-! ## Performance monitor (`src/lib/performance-utils.ts`)

Only the alert/health logic is embedded (`checkPerformanceAlerts`,
`addAlert`, `getAlerts`, `getHealthStatus`): the `completedMetrics`
history and the wall-clock timestamps on alerts feed only
`getRecentMetrics`/`getAverageDuration`/`hasActiveIssues`, which no claim
touches.  Durations are JS numbers, embedded as `ℚ`. -/

/-- `PerformanceAlert.type`. -/
inductive AlertType where
  | warning
  | error
deriving DecidableEq

/-- A recorded `PerformanceAlert` (without the wall-clock timestamp; the
`recommendation` field always equals `message` in the source). -/
structure PerformanceAlert where
  type : AlertType
  operation : String
  message : String
  currentValue : ℚ
  threshold : ℚ
deriving DecidableEq

/-- ASCII `String.toLowerCase`. -/
def strLower (s : String) : String := String.mk (s.toList.map Char.toLower)

/-- JS `String.includes`. -/
def strContains (s sub : String) : Bool := decide (sub.toList <:+: s.toList)

/-- The operation class resolved at the top of `checkPerformanceAlerts`:
thresholds, display name and recommendation messages. -/
structure OpClass where
  warningThreshold : ℚ
  errorThreshold : ℚ
  operationName : String
  warningRec : String
  errorRec : String

/-- The operation-to-thresholds mapping of `checkPerformanceAlerts`, with
the `DEFAULT_THRESHOLDS` values: `uuidGeneration` 50/100, `formatting`
20/40, `total` 80/150 (ms). -/
def opClassOf (operation : String) : OpClass :=
  let lower := strLower operation
  if strContains lower "uuid" || strContains lower "generat" then
    { warningThreshold := 50
      errorThreshold := 100
      operationName := "UUID Generation"
      warningRec := "Performance seems slower than usual. This may be temporary."
      errorRec := "UUID generation is critically slow. Try reducing the count or refreshing the page." }
  else if strContains lower "format" then
    { warningThreshold := 20
      errorThreshold := 40
      operationName := "UUID Formatting"
      warningRec := "Formatting is taking longer than expected. Consider simplifying format options."
      errorRec := "Formatting is critically slow. Try using simpler format options." }
  else
    { warningThreshold := 80
      errorThreshold := 150
      operationName := "Total Operation"
      warningRec := "Performance is slower than optimal but within acceptable limits."
      errorRec := "Performance is critically degraded. Try refreshing the page or reducing the UUID count." }

/-- The mutable monitor state the claims touch: the alert history and the
per-operation-class consecutive-failure counters (a JS `Map`, modelled as
an association list). -/
structure MonitorState where
  alerts : List PerformanceAlert
  consecutiveFailures : List (String × Nat)
deriving DecidableEq

/-- `Map.get(key) || 0`. -/
def mapGetD (m : List (String × Nat)) (k : String) : Nat :=
  match m.find? (fun p => p.1 == k) with
  | some p => p.2
  | none => 0

/-- `Map.set(key, v)`: replace in place when present, else append. -/
def mapSet (m : List (String × Nat)) (k : String) (v : Nat) : List (String × Nat) :=
  if m.any (fun p => p.1 == k) then m.map (fun p => if p.1 == k then (k, v) else p)
  else m ++ [(k, v)]

/-- `CONSECUTIVE_THRESHOLD = 3`. -/
def consecutiveThreshold : Nat := 3

/-- `PerformanceMonitor.addAlert`: push and keep only the last 20. -/
def addAlert (alerts : List PerformanceAlert) (alert : PerformanceAlert) :
    List PerformanceAlert :=
  let l := alerts ++ [alert]
  if l.length > 20 then l.drop (l.length - 20) else l

/-- `PerformanceMonitor.checkPerformanceAlerts`: the sample-recording
step.  A sample at or above the error threshold alerts immediately as
`error`; one at or above the warning threshold increments the consecutive
counter and alerts as `warning` only once that counter reaches 3; one
below the warning threshold resets the counter to 0 and records nothing. -/
def checkPerformanceAlerts (s : MonitorState) (operation : String) (duration : ℚ) :
    MonitorState :=
  let oc := opClassOf operation
  let key := oc.operationName
  let isSlowPerformance := oc.warningThreshold ≤ duration
  let isCritical := oc.errorThreshold ≤ duration
  if isSlowPerformance then
    let currentCount := mapGetD s.consecutiveFailures key
    let cf := mapSet s.consecutiveFailures key (currentCount + 1)
    if isCritical ∨ currentCount + 1 ≥ consecutiveThreshold then
      { alerts :=
          addAlert s.alerts
            { type := if isCritical then .error else .warning
              operation := key
              message := if isCritical then oc.errorRec else oc.warningRec
              currentValue := duration
              threshold := if isCritical then oc.errorThreshold else oc.warningThreshold }
        consecutiveFailures := cf }
    else
      { alerts := s.alerts, consecutiveFailures := cf }
  else
    { alerts := s.alerts, consecutiveFailures := mapSet s.consecutiveFailures key 0 }

/-- `PerformanceMonitor.getAlerts` with no type filter:
`alerts.slice(-limit).reverse()`, most recent first. -/
def getAlerts (alerts : List PerformanceAlert) (limit : Nat) : List PerformanceAlert :=
  (alerts.drop (alerts.length - limit)).reverse

/-- Health status values. -/
inductive HealthKind where
  | good
  | warning
  | critical
deriving DecidableEq

/-- `PerformanceMonitor.getHealthStatus`: aggregate the last 3 recorded
alerts — any error makes the status `critical`, else any warning makes it
`warning`, else `good`. -/
def getHealthStatus (s : MonitorState) : HealthKind × String :=
  let recentAlerts := getAlerts s.alerts 3
  if recentAlerts.any (fun a => a.type == AlertType.error) then
    (.critical, "Performance issues detected that may impact user experience")
  else if recentAlerts.any (fun a => a.type == AlertType.warning) then
    (.warning, "Performance is slower than optimal but within acceptable limits")
  else
    (.good, "Performance is within optimal ranges")

/-! ## Coordinator (`src/hooks/use-uuid-generator.ts`)

The hook state and the steps the claims are about, with React state
updates embedded as explicit state passing (the functional state updates
of the source are applied immediately; all steps run on the
single-threaded event loop).  Screen-reader announcements, the
performance-health banner and its auto-dismiss timer, and the debounce
timers are presentation/scheduling concerns not touched by the claims and
are not part of the state. -/

/-- The hook `GenerationResult`: identifiers, their formatted rendering,
and the two timings. -/
structure GenerationResult where
  uuids : List String
  formattedOutput : String
  generationTimeMs : ℚ
  formatTimeMs : ℚ
deriving DecidableEq

/-- The hook state touched by the claims. -/
structure HookState where
  config : UUIDGeneratorConfig
  result : Option GenerationResult
  isGenerating : Bool
  error : Option String
deriving DecidableEq

/-- The `FormatOptions` literal built from the config in
`regenerateInternal` and in the format-options effect. -/
def formatOptionsOf (config : UUIDGeneratorConfig) : FormatOptions :=
  { includeHyphens := config.includeHyphens
    includeBraces := config.includeBraces
    includeQuotes := config.includeQuotes
    upperCase := config.upperCase
    separateWithCommas := config.separateWithCommas }

/-- `regenerateInternal`: a no-op while `isGenerating`; otherwise run one
full generation cycle against the configuration visible at entry and
return to idle in the `finally`, recording either a fresh result (with
the generation/format timings reported by the performance manager, here
oracle inputs `genMs`/`fmtMs`) or the error message, the previous result
kept intact on failure.

The inner single-item fallback of the source (lines 137-143) returns the
promise from inside `try` without awaiting it, so its `catch` can never
observe the rejection; the rejection reaches the outer `catch` below, and
the fallback is therefore not part of the behaviour. -/
def regenerateInternal (env : CryptoEnv) (cur : RngCursor) (genMs fmtMs : ℚ)
    (s : HookState) : HookState :=
  if s.isGenerating then s
  else
    match generateUUIDs env cur s.config with
    | .ok uuids =>
      { s with
          result := some
            { uuids := uuids
              formattedOutput := formatUUIDs uuids (formatOptionsOf s.config)
              generationTimeMs := genMs
              formatTimeMs := fmtMs }
          error := none
          isGenerating := false }
    | .error e =>
      { s with error := some e, isGenerating := false }

/-- The format-options effect (`use-uuid-generator.ts` lines 232-255):
when a result exists, re-run only the formatter over the existing
`result.uuids` with the current flags, replacing `formattedOutput` and
the format timing in place.  It takes no `CryptoEnv` and no `RngCursor`:
the identifier generator cannot be invoked by this step. -/
def reformatEffect (fmtMs : ℚ) (s : HookState) : HookState :=
  match s.result with
  | some r =>
    { s with
        result := some
          { r with
              formattedOutput := formatUUIDs r.uuids (formatOptionsOf s.config)
              formatTimeMs := fmtMs } }
  | none => s

/-- `CopyResult.type`. -/
inductive CopyKind where
  | single
  | bulk
deriving DecidableEq

/-- The `CopyResult` envelope returned by the copy actions. -/
structure CopyResult where
  type : CopyKind
  success : Bool
  content : String
deriving DecidableEq

/-- `copyAll`: failure envelope when there is no result or
`formattedOutput` is falsy (the empty string); otherwise hand exactly
`result.formattedOutput` to the clipboard.  The second component is the
string handed to `clipboardUtils.copyToClipboard`, `none` when the
clipboard was never invoked; `clip` is the clipboard outcome oracle
(`copyToClipboard` never throws — both its tiers swallow errors). -/
def copyAll (clip : String → Bool) (s : HookState) : CopyResult × Option String :=
  match s.result with
  | some r =>
    if r.formattedOutput = "" then ({ type := .bulk, success := false, content := "" }, none)
    else
      ({ type := .bulk, success := clip r.formattedOutput, content := r.formattedOutput },
       some r.formattedOutput)
  | none => ({ type := .bulk, success := false, content := "" }, none)

/-- `copySingle`: hand exactly the `uuid` argument to the clipboard — no
formatting is applied. -/
def copySingle (clip : String → Bool) (uuid : String) : CopyResult × Option String :=
  ({ type := .single, success := clip uuid, content := uuid }, some uuid)

/-! ## Concrete fixtures for witnesses and counterexamples -/

/-- An environment with only `crypto.getRandomValues`, yielding zero
bytes. -/
def envGRV : CryptoEnv :=
  { hasRandomUUID := false
    nativeRandomUUID := fun _ => ""
    hasGetRandomValues := true
    randomByte := fun _ => 0
    mathRandom16 := fun _ => 0 }

/-- An environment with no crypto API at all (only `Math.random`,
yielding zero nibbles). -/
def envNone : CryptoEnv :=
  { hasRandomUUID := false
    nativeRandomUUID := fun _ => ""
    hasGetRandomValues := false
    randomByte := fun _ => 0
    mathRandom16 := fun _ => 0 }

/-- The initial randomness cursor. -/
def cur0 : RngCursor := ⟨0, 0, 0⟩

/-- A concrete generation result. -/
def resW : GenerationResult :=
  { uuids := ["550e8400-e29b-41d4-a716-446655440000"]
    formattedOutput := "550e8400-e29b-41d4-a716-446655440000"
    generationTimeMs := 1
    formatTimeMs := 1 }

/-- A concrete idle hook state holding `resW`. -/
def stateW : HookState :=
  { config := defaultConfig
    result := some resW
    isGenerating := false
    error := none }

/-- The same state while a generation is in flight. -/
def stateGen : HookState := { stateW with isGenerating := true }

/-- A stored-preferences blob whose `config.count` is the non-integer
number `5 / 2`. -/
def blobHalf : Json := .obj [("config", .obj [("count", .num (5 / 2))])]

/-- The configuration of the round-trip scenario:
`{count: 5, theme: "dark", upperCase: true}`, all else default. -/
def config8 : UUIDGeneratorConfig :=
  { defaultConfig with count := 5, theme := .dark, upperCase := true }

/-- The partial configuration the round trip must restore. -/
def delta8 : ConfigDelta :=
  { ConfigDelta.empty with count := some 5, theme := some .dark, upperCase := some true }

/-! ## Sanity checks of the embedding on concrete inputs -/

example : formatUUIDs [] ⟨true, false, false, false, true⟩ = "" := by decide
example : formatUUIDs ["a", "b"] ⟨true, false, false, false, true⟩ = "a,b" := by decide
example : formatUUIDs ["ab-c"] ⟨false, true, true, true, false⟩ = "\x7b\"ABC\"\x7d" := by decide
example : isCanonicalV4 "550e8400-e29b-41d4-a716-446655440000" = true := by decide
example : isCanonicalV4 "550e8400-e29b-11d4-a716-446655440000" = false := by decide
example : isCanonicalV4 "550e8400-e29b-41d4-c716-446655440000" = false := by decide
example : isCanonicalV4 "" = false := by decide
example : uuidFromBytes (List.replicate 16 0) = "00000000-0000-4000-8000-000000000000" := by
  decide
example : jsLoopIters (5 / 2 : ℚ) = 3 := by
  rw [jsLoopIters, Nat.ceil_eq_iff (by norm_num)]
  norm_num
example : jsLoopIters (0 : ℚ) = 0 := by simp [jsLoopIters]
example : jsLoopIters (3 : ℚ) = 3 := by simp [jsLoopIters]

/-! ## Canonical-shape lemmas -/

theorem isHexL_hexDigit {n : Nat} (h : n < 16) : isHexL (hexDigit n) = true := by
  have H : ∀ m < 16, isHexL (hexDigit m) = true := by decide
  exact H n h

theorem versionByte_hi {b : Nat} (hb : b < 256) : hexDigit ((b &&& 15 ||| 64) / 16) = '4' := by
  have H : ∀ m < 256, hexDigit ((m &&& 15 ||| 64) / 16) = '4' := by decide
  exact H b hb

theorem variantByte_hi {b : Nat} (hb : b < 256) :
    hexDigit ((b &&& 63 ||| 128) / 16) = '8' ∨ hexDigit ((b &&& 63 ||| 128) / 16) = '9' ∨
      hexDigit ((b &&& 63 ||| 128) / 16) = 'a' ∨ hexDigit ((b &&& 63 ||| 128) / 16) = 'b' := by
  have H : ∀ m < 256,
      hexDigit ((m &&& 63 ||| 128) / 16) = '8' ∨ hexDigit ((m &&& 63 ||| 128) / 16) = '9' ∨
        hexDigit ((m &&& 63 ||| 128) / 16) = 'a' ∨ hexDigit ((m &&& 63 ||| 128) / 16) = 'b' := by
    decide
  exact H b hb

theorem versionByte_lt {b : Nat} (hb : b < 256) : (b &&& 15 ||| 64) < 256 := by
  have H : ∀ m < 256, (m &&& 15 ||| 64) < 256 := by decide
  exact H b hb

theorem variantByte_lt {b : Nat} (hb : b < 256) : (b &&& 63 ||| 128) < 256 := by
  have H : ∀ m < 256, (m &&& 63 ||| 128) < 256 := by decide
  exact H b hb

theorem div16_lt {b : Nat} (hb : b < 256) : b / 16 < 16 := by omega

theorem mod16_lt (b : Nat) : b % 16 < 16 := Nat.mod_lt _ (by norm_num)

set_option maxHeartbeats 1000000 in
/-- Any 16-byte fill with byte values `< 256` yields a canonical v4
string after version/variant forcing, hex-encoding and hyphenation. -/
theorem uuidFromBytes_canonical (g : Nat → Nat) (hg : ∀ i, g i < 256) :
    isCanonicalV4 (uuidFromBytes ((List.range 16).map g)) = true := by
  show (([hexDigit (g 0 / 16), hexDigit (g 0 % 16), hexDigit (g 1 / 16), hexDigit (g 1 % 16),
          hexDigit (g 2 / 16), hexDigit (g 2 % 16), hexDigit (g 3 / 16), hexDigit (g 3 % 16),
          hexDigit (g 4 / 16), hexDigit (g 4 % 16), hexDigit (g 5 / 16), hexDigit (g 5 % 16),
          hexDigit ((g 6 &&& 15 ||| 64) / 16), hexDigit ((g 6 &&& 15 ||| 64) % 16),
          hexDigit (g 7 / 16), hexDigit (g 7 % 16),
          hexDigit ((g 8 &&& 63 ||| 128) / 16), hexDigit ((g 8 &&& 63 ||| 128) % 16),
          hexDigit (g 9 / 16), hexDigit (g 9 % 16), hexDigit (g 10 / 16), hexDigit (g 10 % 16),
          hexDigit (g 11 / 16), hexDigit (g 11 % 16), hexDigit (g 12 / 16), hexDigit (g 12 % 16),
          hexDigit (g 13 / 16), hexDigit (g 13 % 16), hexDigit (g 14 / 16), hexDigit (g 14 % 16),
          hexDigit (g 15 / 16), hexDigit (g 15 % 16)].all isHexL)
      && (hexDigit ((g 6 &&& 15 ||| 64) / 16) == '4')
      && ((hexDigit ((g 8 &&& 63 ||| 128) / 16) == '8')
            || (hexDigit ((g 8 &&& 63 ||| 128) / 16) == '9')
            || (hexDigit ((g 8 &&& 63 ||| 128) / 16) == 'a')
            || (hexDigit ((g 8 &&& 63 ||| 128) / 16) == 'b'))) = true
  simp only [List.all_cons, List.all_nil, Bool.and_eq_true, Bool.and_true, Bool.or_eq_true,
    beq_iff_eq]
  refine ⟨⟨?_, versionByte_hi (hg 6)⟩, ?_⟩
  · repeat' apply And.intro
    all_goals first
      | exact isHexL_hexDigit (div16_lt (hg _))
      | exact isHexL_hexDigit (mod16_lt _)
      | exact isHexL_hexDigit (div16_lt (versionByte_lt (hg 6)))
      | exact isHexL_hexDigit (div16_lt (variantByte_lt (hg 8)))
  · have hv := variantByte_hi (hg 8)
    tauto

theorem variantNibble_hi {r : Nat} (hr : r < 16) :
    hexDigit (r &&& 3 ||| 8) = '8' ∨ hexDigit (r &&& 3 ||| 8) = '9' ∨
      hexDigit (r &&& 3 ||| 8) = 'a' ∨ hexDigit (r &&& 3 ||| 8) = 'b' := by
  have H : ∀ m < 16, hexDigit (m &&& 3 ||| 8) = '8' ∨ hexDigit (m &&& 3 ||| 8) = '9' ∨
      hexDigit (m &&& 3 ||| 8) = 'a' ∨ hexDigit (m &&& 3 ||| 8) = 'b' := by decide
  exact H r hr

theorem variantNibble_lt {r : Nat} (hr : r < 16) : (r &&& 3 ||| 8) < 16 := by
  have H : ∀ m < 16, (m &&& 3 ||| 8) < 16 := by decide
  exact H r hr

set_option maxHeartbeats 1000000 in
/-- The `Math.random` template fill with nibble values `< 16` yields a
canonical v4 string, for any stream position `k`. -/
theorem mathRandomUUID_canonical (rnd : Nat → Nat) (hr : ∀ i, rnd i < 16) (k : Nat) :
    isCanonicalV4 (mathRandomUUID rnd k) = true := by
  show (([hexDigit (rnd k), hexDigit (rnd (k+1)), hexDigit (rnd (k+2)), hexDigit (rnd (k+3)),
          hexDigit (rnd (k+4)), hexDigit (rnd (k+5)), hexDigit (rnd (k+6)), hexDigit (rnd (k+7)),
          hexDigit (rnd (k+8)), hexDigit (rnd (k+9)), hexDigit (rnd (k+10)),
          hexDigit (rnd (k+11)),
          '4', hexDigit (rnd (k+12)), hexDigit (rnd (k+13)), hexDigit (rnd (k+14)),
          hexDigit ((rnd (k+15)) &&& 3 ||| 8),
          hexDigit (rnd (k+16)), hexDigit (rnd (k+17)), hexDigit (rnd (k+18)),
          hexDigit (rnd (k+19)), hexDigit (rnd (k+20)), hexDigit (rnd (k+21)),
          hexDigit (rnd (k+22)), hexDigit (rnd (k+23)), hexDigit (rnd (k+24)),
          hexDigit (rnd (k+25)), hexDigit (rnd (k+26)), hexDigit (rnd (k+27)),
          hexDigit (rnd (k+28)), hexDigit (rnd (k+29)), hexDigit (rnd (k+30))].all isHexL)
      && (('4' : Char) == '4')
      && ((hexDigit ((rnd (k+15)) &&& 3 ||| 8) == '8')
            || (hexDigit ((rnd (k+15)) &&& 3 ||| 8) == '9')
            || (hexDigit ((rnd (k+15)) &&& 3 ||| 8) == 'a')
            || (hexDigit ((rnd (k+15)) &&& 3 ||| 8) == 'b'))) = true
  simp only [List.all_cons, List.all_nil, Bool.and_eq_true, Bool.and_true, Bool.or_eq_true,
    beq_iff_eq]
  refine ⟨⟨?_, trivial⟩, ?_⟩
  · repeat' apply And.intro
    all_goals first
      | decide
      | exact isHexL_hexDigit (hr _)
      | exact isHexL_hexDigit (variantNibble_lt (hr _))
  · have hv := variantNibble_hi (hr (k+15))
    tauto

/-! ## Generation-pipeline lemmas -/

/-- The crypto branch of `generateV4UUID` is canonical. -/
theorem generateV4UUID_canonical_crypto (env : CryptoEnv) (cur : RngCursor)
    (h : env.hasGetRandomValues = true) (hbytes : ∀ i, env.randomByte i < 256) :
    isCanonicalV4 (generateV4UUID env cur).1 = true := by
  simp only [generateV4UUID, h, if_true]
  exact uuidFromBytes_canonical _ (fun i => hbytes _)

/-- The `Math.random` branch of `generateV4UUID` is canonical. -/
theorem generateV4UUID_canonical_math (env : CryptoEnv) (cur : RngCursor)
    (h : env.hasGetRandomValues = false) (hmath : ∀ i, env.mathRandom16 i < 16) :
    isCanonicalV4 (generateV4UUID env cur).1 = true := by
  simp only [generateV4UUID, h, Bool.false_eq_true, if_false]
  exact mathRandomUUID_canonical _ hmath _

/-- `generateV4List` produces exactly `n` identifiers, canonical whenever
each single `generateV4UUID` output is. -/
theorem generateV4List_ok (env : CryptoEnv)
    (hone : ∀ cur, isCanonicalV4 (generateV4UUID env cur).1 = true) :
    ∀ (n : Nat) (cur : RngCursor), (generateV4List env n cur).1.length = n ∧
      ∀ u ∈ (generateV4List env n cur).1, isCanonicalV4 u = true := by
  intro n
  induction n with
  | zero => intro cur; exact ⟨rfl, by simp [generateV4List]⟩
  | succ n ih =>
    intro cur
    obtain ⟨hl, hc⟩ := ih (generateV4UUID env cur).2
    refine ⟨by simp [generateV4List, hl], ?_⟩
    intro u hu
    simp only [generateV4List, List.mem_cons] at hu
    rcases hu with rfl | hu
    · exact hone cur
    · exact hc u hu

/-- The `count ≤ 100` loop of `generateUUIDs` at version v4 succeeds with
exactly `n` identifiers, all canonical. -/
theorem generateLoop_ok (env : CryptoEnv)
    (hnative : env.hasRandomUUID = true → ∀ i, isCanonicalV4 (env.nativeRandomUUID i) = true)
    (hfall : env.hasRandomUUID = false →
      ∀ cur, isCanonicalV4 (generateV4UUID env cur).1 = true) :
    ∀ (n : Nat) (cur : RngCursor), ∃ us, generateLoop env .v4 n cur = .ok us ∧
      us.length = n ∧ ∀ u ∈ us, isCanonicalV4 u = true := by
  intro n
  induction n with
  | zero => intro cur; exact ⟨[], rfl, rfl, by simp⟩
  | succ n ih =>
    intro cur
    by_cases hN : env.hasRandomUUID
    · obtain ⟨us, hus, hlen, hcan⟩ := ih { cur with nativeOff := cur.nativeOff + 1 }
      refine ⟨env.nativeRandomUUID cur.nativeOff :: us, ?_, by simp [hlen], ?_⟩
      · simp [generateLoop, hN, hus]
      · intro u hu
        rcases List.mem_cons.mp hu with rfl | hu
        · exact hnative hN cur.nativeOff
        · exact hcan u hu
    · simp only [Bool.not_eq_true] at hN
      obtain ⟨us, hus, hlen, hcan⟩ := ih (generateV4UUID env cur).2
      refine ⟨(generateV4UUID env cur).1 :: us, ?_, by simp [hlen], ?_⟩
      · simp [generateLoop, hN, hus]
      · intro u hu
        rcases List.mem_cons.mp hu with rfl | hu
        · exact hfall hN cur
        · exact hcan u hu

/-- `generateBatch` at version v4 under an available crypto API succeeds
with exactly `⌈cnt⌉₊` identifiers, all canonical. -/
theorem generateBatch_ok (env : CryptoEnv) (cnt : ℚ) (cur : RngCursor)
    (hsup : isSupported env = true)
    (hbytes : ∀ i, env.randomByte i < 256)
    (hnative : env.hasRandomUUID = true → ∀ i, isCanonicalV4 (env.nativeRandomUUID i) = true) :
    ∃ us cur2, generateBatch env cnt .v4 cur = .ok (us, cur2) ∧
      us.length = jsLoopIters cnt ∧ ∀ u ∈ us, isCanonicalV4 u = true := by
  by_cases hN : env.hasRandomUUID
  · refine ⟨(List.range (jsLoopIters cnt)).map (fun i => env.nativeRandomUUID (cur.nativeOff + i)),
      { cur with nativeOff := cur.nativeOff + jsLoopIters cnt }, ?_, by simp, ?_⟩
    · simp [generateBatch, hN]
    · intro u hu
      simp only [List.mem_map, List.mem_range] at hu
      obtain ⟨i, _, rfl⟩ := hu
      exact hnative hN _
  · simp only [Bool.not_eq_true] at hN
    have hG : env.hasGetRandomValues = true := by
      rcases Bool.eq_false_or_eq_true env.hasGetRandomValues with h | h
      · exact h
      · simp [isSupported, hN, h] at hsup
    refine ⟨(List.range (jsLoopIters cnt)).map (fun i =>
        uuidFromBytes ((List.range 16).map (fun j => env.randomByte (cur.byteOff + 16 * i + j)))),
      { cur with byteOff := cur.byteOff + 16 * jsLoopIters cnt }, ?_, by simp, ?_⟩
    · simp [generateBatch, hN, hG]
    · intro u hu
      simp only [List.mem_map, List.mem_range] at hu
      obtain ⟨i, _, rfl⟩ := hu
      exact uuidFromBytes_canonical _ (fun j => hbytes _)

/-- Chunk-size arithmetic of the batch loop: the chunk at index `idx` of
an integer count `n` has `min 50 (n - 50 idx)` iterations. -/
theorem size_iters (n idx : ℕ) :
    jsLoopIters (min ((idx : ℚ) * 50 + 50) (n : ℚ) - (idx : ℚ) * 50)
      = min 50 (n - 50 * idx) := by
  rcases le_or_lt n (50 * idx) with hn | hn
  · have h0 : (n : ℚ) ≤ (idx : ℚ) * 50 := by
      have h := (Nat.cast_le (α := ℚ)).mpr hn
      push_cast at h
      linarith
    rw [jsLoopIters, min_eq_right (by linarith : (n : ℚ) ≤ (idx : ℚ) * 50 + 50),
      Nat.ceil_eq_zero.mpr (by linarith : (n : ℚ) - (idx : ℚ) * 50 ≤ 0)]
    omega
  · have hle : (50 * idx : ℕ) ≤ min (50 * idx + 50) n := le_min (by omega) (by omega)
    have h1 : min ((idx : ℚ) * 50 + 50) (n : ℚ) - (idx : ℚ) * 50
        = ((min (50 * idx + 50) n - 50 * idx : ℕ) : ℚ) := by
      rw [Nat.cast_sub hle, Nat.cast_min]
      push_cast
      ring_nf
    rw [jsLoopIters, h1, Nat.ceil_natCast]
    omega

/-- The batch loop from index `batchIndex` with enough fuel produces the
remaining `n - 50 * batchIndex` identifiers, all canonical. -/
theorem batchLoop_ok (env : CryptoEnv) (config : UUIDGeneratorConfig)
    (hsup : isSupported env = true)
    (hbytes : ∀ i, env.randomByte i < 256)
    (hnative : env.hasRandomUUID = true → ∀ i, isCanonicalV4 (env.nativeRandomUUID i) = true)
    (n : ℕ) (hcount : config.count = (n : ℚ)) (hv : config.version = .v4) :
    ∀ (fuel batchIndex : Nat) (cur : RngCursor), n ≤ 50 * batchIndex + 50 * fuel →
      ∃ us, batchLoop env config batchIndex fuel cur = .ok us ∧
        us.length = n - 50 * batchIndex ∧ ∀ u ∈ us, isCanonicalV4 u = true := by
  intro fuel
  induction fuel with
  | zero =>
    intro batchIndex cur hle
    refine ⟨[], rfl, ?_, by simp⟩
    simp only [List.length_nil]
    omega
  | succ fuel ih =>
    intro batchIndex cur hle
    obtain ⟨us, cur2, hgb, hlen, hcan⟩ :=
      generateBatch_ok env
        (min ((batchIndex : ℚ) * 50 + 50) config.count - (batchIndex : ℚ) * 50) cur
        hsup hbytes hnative
    obtain ⟨rest, hrest, hrlen, hrcan⟩ := ih (batchIndex + 1) cur2 (by omega)
    refine ⟨us ++ rest, ?_, ?_, ?_⟩
    · simp only [batchLoop, hv, hgb, hrest]
    · rw [List.length_append, hrlen, hlen, hcount, size_iters]
      omega
    · intro u hu
      rcases List.mem_append.mp hu with hu | hu
      · exact hcan u hu
      · exact hrcan u hu

/-- `generateUUIDBatch` for an integer count `n` produces exactly `n`
canonical identifiers. -/
theorem generateUUIDBatch_ok (env : CryptoEnv) (cur : RngCursor)
    (config : UUIDGeneratorConfig)
    (hsup : isSupported env = true)
    (hbytes : ∀ i, env.randomByte i < 256)
    (hnative : env.hasRandomUUID = true → ∀ i, isCanonicalV4 (env.nativeRandomUUID i) = true)
    (n : ℕ) (hcount : config.count = (n : ℚ)) (hv : config.version = .v4) :
    ∃ us, generateUUIDBatch env cur config = .ok us ∧ us.length = n ∧
      ∀ u ∈ us, isCanonicalV4 u = true := by
  have hfuel : n ≤ 50 * 0 + 50 * jsLoopIters (config.count / 50) := by
    rw [hcount, jsLoopIters]
    have h := Nat.le_ceil ((n : ℚ) / 50)
    have h2 : (n : ℚ) ≤ 50 * (⌈(n : ℚ) / 50⌉₊ : ℚ) := by
      rw [div_le_iff₀ (by norm_num : (0:ℚ) < 50)] at h
      linarith
    have h3 : (n : ℚ) ≤ ((50 * ⌈(n : ℚ) / 50⌉₊ : ℕ) : ℚ) := by push_cast; linarith
    have h4 : n ≤ 50 * ⌈(n : ℚ) / 50⌉₊ := by exact_mod_cast h3
    omega
  obtain ⟨us, hus, hlen, hcan⟩ :=
    batchLoop_ok env config hsup hbytes hnative n hcount hv
      (jsLoopIters (config.count / 50)) 0 cur hfuel
  exact ⟨us, hus, by simpa using hlen, hcan⟩

/-! ## Claim C1 -/

/-- C1: for every integer count in `[1, 1000]` and version v4, when a
secure randomness source is available (`isSupported`), `generateUUIDs`
succeeds with exactly `count` strings, each in canonical v4 form.  Byte
values of `crypto.getRandomValues` are `< 256`; on the native path the
platform contract that `crypto.randomUUID` returns canonical v4 strings
is a hypothesis. -/
theorem c1_generateUUIDs_canonical (env : CryptoEnv) (cur : RngCursor)
    (config : UUIDGeneratorConfig) (n : ℕ)
    (h1 : 1 ≤ n) (h2 : n ≤ 1000)
    (hcount : config.count = (n : ℚ)) (hv : config.version = .v4)
    (hsup : isSupported env = true)
    (hbytes : ∀ i, env.randomByte i < 256)
    (hnative : env.hasRandomUUID = true → ∀ i, isCanonicalV4 (env.nativeRandomUUID i) = true) :
    ∃ us, generateUUIDs env cur config = .ok us ∧ us.length = n ∧
      ∀ u ∈ us, isCanonicalV4 u = true := by
  have hvalid : ¬ (config.count < 1 ∨ config.count > 1000) := by
    rw [hcount]
    push_neg
    constructor
    · exact_mod_cast h1
    · exact_mod_cast h2
  have hns : ¬ (isSupported env = false) := by simp [hsup]
  by_cases h100 : config.count > 100
  · obtain ⟨us, hus, hlen, hcan⟩ :=
      generateUUIDBatch_ok env cur config hsup hbytes hnative n hcount hv
    refine ⟨us, ?_, hlen, hcan⟩
    simp only [generateUUIDs]
    rw [if_neg hvalid, if_neg hns, if_pos h100]
    exact hus
  · have hfall : env.hasRandomUUID = false →
        ∀ c, isCanonicalV4 (generateV4UUID env c).1 = true := by
      intro hN c
      have hG : env.hasGetRandomValues = true := by
        rcases Bool.eq_false_or_eq_true env.hasGetRandomValues with h | h
        · exact h
        · simp [isSupported, hN, h] at hsup
      exact generateV4UUID_canonical_crypto env c hG hbytes
    obtain ⟨us, hus, hlen, hcan⟩ := generateLoop_ok env hnative hfall n cur
    refine ⟨us, ?_, hlen, hcan⟩
    simp only [generateUUIDs]
    rw [if_neg hvalid, if_neg hns, if_neg h100, hv, hcount, jsLoopIters, Nat.ceil_natCast]
    exact hus

/-- Witness for C1 at count 3 in the `crypto.getRandomValues`
environment. -/
theorem c1_witness :
    ∃ us, generateUUIDs envGRV cur0 { defaultConfig with count := ((3 : ℕ) : ℚ) } = .ok us ∧
      us.length = 3 ∧ ∀ u ∈ us, isCanonicalV4 u = true :=
  c1_generateUUIDs_canonical envGRV cur0 _ 3 (by norm_num) (by norm_num) rfl rfl rfl
    (fun _ => by norm_num [envGRV]) (fun h => absurd h (by decide))

/-! ## Claim C6 -/

/-- C6 (amended): `generateUUIDs` fails with the invalid-count error for
every count `< 1` or `> 1000` (in particular `0` and `1001`); the
non-integer part of the original claim is refuted by
`c6_counterexample`. -/
theorem c6_count_validation (env : CryptoEnv) (cur : RngCursor)
    (config : UUIDGeneratorConfig) (h : config.count < 1 ∨ config.count > 1000) :
    generateUUIDs env cur config = .error countErrorMsg := by
  simp only [generateUUIDs]
  rw [if_pos h]

/-- Witness for C6 at the claim's two named counts, 0 and 1001. -/
theorem c6_witness :
    generateUUIDs envGRV cur0 { defaultConfig with count := 0 } = .error countErrorMsg ∧
      generateUUIDs envGRV cur0 { defaultConfig with count := 1001 } = .error countErrorMsg :=
  ⟨c6_count_validation envGRV cur0 _ (Or.inl (by norm_num)),
   c6_count_validation envGRV cur0 _ (Or.inr (by norm_num))⟩

/-- C6 counterexample: the claim also asserts failure for every
non-integer count, but `generateUUIDs` only checks `count < 1 ||
count > 1000`: at the non-integer count `5 / 2` (with the crypto API
present) it succeeds, returning 3 identifiers. -/
theorem c6_counterexample :
    (∃ us, generateUUIDs envGRV cur0 { defaultConfig with count := 5 / 2 } = .ok us ∧
        us.length = 3) ∧
      ¬ ∃ z : ℤ, ((5 : ℚ) / 2) = (z : ℚ) := by
  constructor
  · have h3 : jsLoopIters ((5 : ℚ) / 2) = 3 := by
      rw [jsLoopIters, Nat.ceil_eq_iff (by norm_num)]
      norm_num
    have hvalid : ¬ (((5 : ℚ) / 2) < 1 ∨ ((5 : ℚ) / 2) > 1000) := by
      push_neg
      norm_num
    obtain ⟨us, hus, hlen, _⟩ :=
      generateLoop_ok envGRV (fun h => absurd h (by decide))
        (fun _ c => generateV4UUID_canonical_crypto envGRV c rfl (fun _ => by norm_num [envGRV])) 3 cur0
    refine ⟨us, ?_, hlen⟩
    simp only [generateUUIDs]
    rw [if_neg hvalid, if_neg (by decide : ¬ (isSupported envGRV = false)),
      if_neg (by norm_num : ¬ ((5 : ℚ) / 2 > 100)), h3]
    exact hus
  · rintro ⟨z, hz⟩
    have h5 : (5 : ℚ) = (z : ℚ) * 2 := by
      field_simp at hz
      linarith
    have h6 : (5 : ℤ) = z * 2 := by exact_mod_cast h5
    omega

/-! ## Claim C10 -/

/-- C10: with `crypto.getRandomValues` absent, the `Math.random`-based
generator returned by `getFallbackGenerator` still produces exactly
`count` canonical v4 strings (`Math.random() * 16 | 0` is `< 16`). -/
theorem c10_fallback_canonical (env : CryptoEnv) (cur : RngCursor) (n : ℕ)
    (hgrv : env.hasGetRandomValues = false)
    (hmath : ∀ i, env.mathRandom16 i < 16) :
    (getFallbackGenerator env cur (n : ℚ)).length = n ∧
      ∀ u ∈ getFallbackGenerator env cur (n : ℚ), isCanonicalV4 u = true := by
  have hone : ∀ c, isCanonicalV4 (generateV4UUID env c).1 = true :=
    fun c => generateV4UUID_canonical_math env c hgrv hmath
  have h := generateV4List_ok env hone (jsLoopIters (n : ℚ)) cur
  rw [getFallbackGenerator]
  rw [jsLoopIters, Nat.ceil_natCast] at h
  rw [jsLoopIters, Nat.ceil_natCast]
  exact h

/-- Witness for C10 at count 2 in the crypto-free environment. -/
theorem c10_witness :
    (getFallbackGenerator envNone cur0 ((2 : ℕ) : ℚ)).length = 2 ∧
      ∀ u ∈ getFallbackGenerator envNone cur0 ((2 : ℕ) : ℚ), isCanonicalV4 u = true :=
  c10_fallback_canonical envNone cur0 2 rfl (fun _ => by norm_num [envNone])

/-! ## Formatter lemmas -/

theorem strToList_mk (l : List Char) : (String.mk l).toList = l := rfl

theorem strToList_append (s t : String) : (s ++ t).toList = s.toList ++ t.toList := rfl

/-- `Char.toUpper` maps nothing new onto the comma. -/
theorem toUpper_eq_comma {c : Char} (h : Char.toUpper c = ',') : c = ',' := by
  have H : ∀ m < 123, 97 ≤ m → Char.ofNat (m - 32) ≠ ',' := by decide
  simp only [Char.toUpper] at h
  split at h
  · rename_i hc
    exact absurd h (H c.toNat (by omega) hc.1)
  · exact h

/-- `Char.toLower` maps nothing new onto the comma. -/
theorem toLower_eq_comma {c : Char} (h : Char.toLower c = ',') : c = ',' := by
  have H : ∀ m < 91, 65 ≤ m → Char.ofNat (m + 32) ≠ ',' := by decide
  simp only [Char.toLower] at h
  split at h
  · rename_i hc
    exact absurd h (H c.toNat (by omega) hc.1)
  · exact h

theorem no_comma_case (s : String) (hs : ',' ∉ s.toList) (up : Bool) :
    ',' ∉ (if up then String.mk (s.toList.map Char.toUpper)
           else String.mk (s.toList.map Char.toLower)).toList := by
  split
  · intro hmem
    obtain ⟨d, hd, hdc⟩ := List.mem_map.mp hmem
    exact hs (toUpper_eq_comma hdc ▸ hd)
  · intro hmem
    obtain ⟨d, hd, hdc⟩ := List.mem_map.mp hmem
    exact hs (toLower_eq_comma hdc ▸ hd)

theorem no_comma_wrap (s : String) (hs : ',' ∉ s.toList) (q b : Bool) :
    ',' ∉ (if b then "\x7b" ++ (if q then "\"" ++ s ++ "\"" else s) ++ "\x7d"
           else (if q then "\"" ++ s ++ "\"" else s)).toList := by
  have hq : ',' ∉ ((if q then "\"" ++ s ++ "\"" else s)).toList := by
    split
    · intro hmem
      rw [strToList_append, strToList_append] at hmem
      rcases List.mem_append.mp hmem with hm | hm
      · rcases List.mem_append.mp hm with hm2 | hm2
        · exact absurd hm2 (by decide)
        · exact hs hm2
      · exact absurd hm (by decide)
    · exact hs
  split
  · intro hmem
    rw [strToList_append, strToList_append] at hmem
    rcases List.mem_append.mp hmem with hm | hm
    · rcases List.mem_append.mp hm with hm2 | hm2
      · exact absurd hm2 (by decide)
      · exact hq hm2
    · exact absurd hm (by decide)
  · exact hq

/-- `formatSingleUUID` introduces no comma. -/
theorem formatSingleUUID_no_comma (x : String) (flags : FormatOptions)
    (hx : ',' ∉ x.toList) : ',' ∉ (formatSingleUUID x flags).toList := by
  have h1 : ',' ∉ ((if flags.includeHyphens then x
      else String.mk (x.toList.filter (fun c => c ≠ '-')))).toList := by
    split
    · exact hx
    · intro hmem
      exact hx (List.mem_of_mem_filter hmem)
  exact no_comma_wrap _ (no_comma_case _ h1 _) _ _

/-- A one-element list is formatted as the single formatted identifier. -/
theorem formatUUIDs_single (x : String) (flags : FormatOptions) :
    formatUUIDs [x] flags = formatSingleUUID x flags := by
  rw [formatUUIDs]
  rw [if_neg (by norm_num : ¬ (([x] : List String).length = 0))]
  rw [if_neg (by simp : ¬ (flags.separateWithCommas = true ∧ ([x] : List String).length > 1))]
  rfl

/-! ## Claim C4 -/

/-- C4 counterexample: with `separateWithCommas` and two identifiers, the
source joins with the single character `","`, not with `", "` as the
claim states. -/
theorem c4_counterexample :
    formatUUIDs
        ["550e8400-e29b-41d4-a716-446655440000", "16ba7b81-09da-4d11-80b4-00c04fd430c8"]
        ⟨true, false, false, false, true⟩
      = "550e8400-e29b-41d4-a716-446655440000" ++ "," ++ "16ba7b81-09da-4d11-80b4-00c04fd430c8"
    ∧ formatUUIDs
        ["550e8400-e29b-41d4-a716-446655440000", "16ba7b81-09da-4d11-80b4-00c04fd430c8"]
        ⟨true, false, false, false, true⟩
      ≠ "550e8400-e29b-41d4-a716-446655440000" ++ ", "
          ++ "16ba7b81-09da-4d11-80b4-00c04fd430c8" := by
  constructor
  · decide
  · decide

/-- C4 (amended): `formatAll` maps `formatOne` over the list and joins
with the single-character separator `","` (not `", "`) when
`separateWithCommas` and more than one identifier, otherwise with a
newline; the empty list yields `""`, and a single comma-free identifier
with `separateWithCommas` produces no comma. -/
theorem c4_formatAll_amended :
    (∀ flags : FormatOptions, formatUUIDs [] flags = "") ∧
    (∀ (uuids : List String) (flags : FormatOptions), flags.separateWithCommas = true →
        uuids.length > 1 →
        formatUUIDs uuids flags
          = String.intercalate "," (uuids.map (fun u => formatSingleUUID u flags))) ∧
    (∀ (uuids : List String) (flags : FormatOptions),
        ¬ (flags.separateWithCommas = true ∧ uuids.length > 1) →
        formatUUIDs uuids flags
          = String.intercalate "\n" (uuids.map (fun u => formatSingleUUID u flags))) ∧
    (∀ (x : String) (flags : FormatOptions), flags.separateWithCommas = true →
        ',' ∉ x.toList → ',' ∉ (formatUUIDs [x] flags).toList) := by
  refine ⟨fun flags => rfl, ?_, ?_, ?_⟩
  · intro uuids flags hsep hlen
    rw [formatUUIDs]
    rw [if_neg (by omega : ¬ (uuids.length = 0))]
    rw [if_pos ⟨hsep, hlen⟩]
  · intro uuids flags hcond
    rcases uuids with _ | ⟨y, ys⟩
    · rfl
    · rw [formatUUIDs]
      rw [if_neg (by simp : ¬ ((y :: ys).length = 0))]
      rw [if_neg hcond]
  · intro x flags _ hx
    rw [formatUUIDs_single]
    exact formatSingleUUID_no_comma x flags hx

/-- Witness for C4 at concrete inputs: empty list, a two-element
comma-join, a two-element newline-join, and a comma-free singleton. -/
theorem c4_witness :
    formatUUIDs [] ⟨true, true, true, true, true⟩ = "" ∧
    formatUUIDs ["a", "b"] ⟨true, false, false, false, true⟩
      = String.intercalate "," ["a", "b"] ∧
    formatUUIDs ["a", "b"] ⟨true, false, false, false, false⟩
      = String.intercalate "\n" ["a", "b"] ∧
    ',' ∉ (formatUUIDs ["ab"] ⟨true, false, false, false, true⟩).toList := by
  refine ⟨c4_formatAll_amended.1 _, ?_, ?_, ?_⟩
  · have h := c4_formatAll_amended.2.1 ["a", "b"] ⟨true, false, false, false, true⟩ rfl
      (by norm_num)
    simpa using h
  · have h := c4_formatAll_amended.2.2.1 ["a", "b"] ⟨true, false, false, false, false⟩
      (by simp)
    simpa using h
  · exact c4_formatAll_amended.2.2.2 "ab" ⟨true, false, false, false, true⟩ rfl (by decide)

/-! ## Claim C2 -/

/-- C2: when a result exists, the format-options effect replaces exactly
`formattedOutput` (recomputed by the formatter from the *existing*
identifiers under the currently active flags) and the format timing —
the identifiers, the generation timing, and the rest of the hook state
are unchanged.  `reformatEffect` takes no `CryptoEnv`/`RngCursor`, so
the identifier generator cannot be invoked by this step. -/
theorem c2_reformat_frame (s : HookState) (r : GenerationResult) (fmtMs : ℚ)
    (h : s.result = some r) :
    (reformatEffect fmtMs s).result
        = some { r with
            formattedOutput := formatUUIDs r.uuids (formatOptionsOf s.config)
            formatTimeMs := fmtMs } ∧
    ((reformatEffect fmtMs s).result.map (fun g => g.uuids)) = some r.uuids ∧
    ((reformatEffect fmtMs s).result.map (fun g => g.generationTimeMs))
        = some r.generationTimeMs ∧
    (reformatEffect fmtMs s).config = s.config ∧
    (reformatEffect fmtMs s).isGenerating = s.isGenerating ∧
    (reformatEffect fmtMs s).error = s.error := by
  simp [reformatEffect, h]

/-- Witness for C2 at a concrete state: identifiers survive a reformat
unchanged while `formattedOutput` is recomputed. -/
theorem c2_witness :
    ((reformatEffect 2 stateW).result.map (fun g => g.uuids)) = some resW.uuids ∧
    (reformatEffect 2 stateW).result
      = some { resW with
          formattedOutput := formatUUIDs resW.uuids (formatOptionsOf stateW.config)
          formatTimeMs := 2 } :=
  ⟨(c2_reformat_frame stateW resW 2 rfl).2.1, (c2_reformat_frame stateW resW 2 rfl).1⟩

/-! ## Claim C3 -/

/-- C3: at most one generation cycle is in flight.  A regenerate trigger
arriving in the `generating` state leaves the state exactly unchanged
(dropped — not queued, not merged); a cycle started from idle always
ends idle, on completion and on failure alike; the completed cycle's
output is exactly the generation of the configuration visible at entry,
and a failed cycle records the error while keeping the previous result
intact. -/
theorem c3_single_flight (env : CryptoEnv) (cur : RngCursor) (genMs fmtMs : ℚ)
    (s : HookState) :
    (s.isGenerating = true → regenerateInternal env cur genMs fmtMs s = s) ∧
    (s.isGenerating = false →
      (regenerateInternal env cur genMs fmtMs s).isGenerating = false) ∧
    (s.isGenerating = false → ∀ us, generateUUIDs env cur s.config = .ok us →
      regenerateInternal env cur genMs fmtMs s =
        { s with
            result := some
              { uuids := us
                formattedOutput := formatUUIDs us (formatOptionsOf s.config)
                generationTimeMs := genMs
                formatTimeMs := fmtMs }
            error := none
            isGenerating := false }) ∧
    (s.isGenerating = false → ∀ e, generateUUIDs env cur s.config = .error e →
      regenerateInternal env cur genMs fmtMs s =
        { s with error := some e, isGenerating := false }) := by
  refine ⟨?_, ?_, ?_, ?_⟩
  · intro h
    simp [regenerateInternal, h]
  · intro h
    cases hg : generateUUIDs env cur s.config with
    | ok us => simp [regenerateInternal, h, hg]
    | error e => simp [regenerateInternal, h, hg]
  · intro h us hus
    simp [regenerateInternal, h, hus]
  · intro h e he
    simp [regenerateInternal, h, he]

/-- Witness for C3: a trigger while generating is a no-op, and a cycle
from idle ends idle. -/
theorem c3_witness :
    regenerateInternal envGRV cur0 1 1 stateGen = stateGen ∧
    (regenerateInternal envGRV cur0 1 1 stateW).isGenerating = false :=
  ⟨(c3_single_flight envGRV cur0 1 1 stateGen).1 rfl,
   (c3_single_flight envGRV cur0 1 1 stateW).2.1 rfl⟩

/-! ## Claim C5 -/

/-- C5 counterexample: `copySingle` hands the raw identifier argument to
the clipboard; with `upperCase` active, that string differs from the
`formatOne` output the claim promises. -/
theorem c5_counterexample :
    (copySingle (fun _ => true) "550e8400-e29b-41d4-a716-446655440000").2
        = some "550e8400-e29b-41d4-a716-446655440000" ∧
    (copySingle (fun _ => true) "550e8400-e29b-41d4-a716-446655440000").2
        ≠ some (formatSingleUUID "550e8400-e29b-41d4-a716-446655440000"
            ⟨true, false, false, true, false⟩) := by
  constructor
  · rfl
  · decide

/-- C5 (amended): bulk copy hands exactly the current result's
`formattedOutput` to the clipboard (when present and non-empty), and
single-item copy hands exactly the raw identifier argument — it does not
re-apply `formatOne`. -/
theorem c5_clipboard_amended (clip : String → Bool) (s : HookState)
    (r : GenerationResult) (h : s.result = some r) (hne : r.formattedOutput ≠ "")
    (u : String) :
    (copyAll clip s).2 = some r.formattedOutput ∧
    (copyAll clip s).1.content = r.formattedOutput ∧
    (copySingle clip u).2 = some u ∧
    (copySingle clip u).1.content = u := by
  refine ⟨?_, ?_, rfl, rfl⟩ <;> simp [copyAll, h, hne]

/-- Witness for C5 at a concrete state and identifier. -/
theorem c5_witness :
    (copyAll (fun _ => true) stateW).2 = some resW.formattedOutput ∧
    (copySingle (fun _ => true) "x").2 = some "x" :=
  ⟨(c5_clipboard_amended (fun _ => true) stateW resW rfl (by decide) "x").1,
   (c5_clipboard_amended (fun _ => true) stateW resW rfl (by decide) "x").2.2.1⟩

/-! ## Claim C7 -/

/-- C7 counterexample: the claim says load validates `count` as an
*integer* in `[1, 1000]` and drops failing fields, but
`validateAndMigrate` only checks `typeof count === "number"` and the
range: a stored `count` of `5 / 2` is kept, not dropped. -/
theorem c7_counterexample :
    loadPreferences true (some "blob") (fun _ => .ok blobHalf)
        = { ConfigDelta.empty with count := some (5 / 2) } ∧
    ¬ ∃ z : ℤ, ((5 : ℚ) / 2) = (z : ℚ) := by
  constructor
  · show ({ count := if 1 ≤ (5 : ℚ) / 2 ∧ (5 : ℚ) / 2 ≤ 1000 then some ((5 : ℚ) / 2) else none
            version := none
            includeHyphens := none
            includeBraces := none
            includeQuotes := none
            upperCase := none
            separateWithCommas := none
            theme := none
            autoCopy := none } : ConfigDelta)
        = { ConfigDelta.empty with count := some (5 / 2) }
    rw [if_pos ⟨by norm_num, by norm_num⟩]
    rfl
  · rintro ⟨z, hz⟩
    have h5 : (5 : ℚ) = (z : ℚ) * 2 := by
      field_simp at hz
      linarith
    have h6 : (5 : ℤ) = z * 2 := by exact_mod_cast h5
    omega

/-- C7 (amended): `loadPreferences` is total (never throws) and returns
`{}` when storage is unavailable, when the key is missing, and when
`JSON.parse` fails; a loaded `count` is always a *number* in `[1, 1000]`
(integrality is not enforced — see the counterexample); and fields are
validated and dropped individually (a bad `count` does not prevent a
good `theme` from loading). -/
theorem c7_load_validation (parse : String → Except String Json)
    (st : Option String) (s e : String) (hpe : parse s = .error e)
    (j : Json) (q : ℚ) (hq : (validateAndMigrate j).count = some q) :
    loadPreferences false st parse = .empty ∧
    loadPreferences true none parse = .empty ∧
    loadPreferences true (some s) parse = .empty ∧
    (1 ≤ q ∧ q ≤ 1000) ∧
    validateAndMigrate (Json.obj [("count", Json.str "bad"), ("theme", Json.str "dark")])
      = { ConfigDelta.empty with theme := some .dark } := by
  refine ⟨rfl, rfl, ?_, ?_, by decide⟩
  · by_cases hs : s = ""
    · simp [loadPreferences, hs]
    · simp [loadPreferences, hs, hpe]
  · simp only [validateAndMigrate] at hq
    split at hq
    · split at hq
      · rename_i hcond
        obtain rfl : _ = q := Option.some.inj hq
        exact hcond
      · exact absurd hq (by simp)
    · exact absurd hq (by simp)

/-- Witness for C7: corrupted storage loads as `{}`, and a loaded count
of 7 is in range. -/
theorem c7_witness :
    loadPreferences true (some "invalid-json") (fun _ => .error "bad") = ConfigDelta.empty ∧
      (1 ≤ (7 : ℚ) ∧ (7 : ℚ) ≤ 1000) :=
  ⟨(c7_load_validation (fun _ => .error "bad") none "invalid-json" "bad" rfl
      (Json.obj [("count", Json.num 7)]) 7 (by decide)).2.2.1,
   (c7_load_validation (fun _ => .error "bad") none "invalid-json" "bad" rfl
      (Json.obj [("count", Json.num 7)]) 7 (by decide)).2.2.2.1⟩

/-! ## Claim C8 -/

/-- C8: saving `{count: 5, theme: "dark", upperCase: true}` (all other
fields default) stores exactly the three non-default fields — no
`version` key, since v4 is the default — and loading restores exactly
`{count: 5, theme: "dark", upperCase: true}`.  The platform pair
`JSON.stringify`/`JSON.parse` is assumed to round-trip this blob and to
produce a non-empty string for it. -/
theorem c8_roundtrip (stringify : Json → String) (parse : String → Except String Json)
    (now : String)
    (hrt : parse (stringify (storedBlob config8 now)) = .ok (storedBlob config8 now))
    (hne : ¬ (stringify (storedBlob config8 now) = "")) :
    (savePreferences true stringify config8 now).2 = true ∧
    storedBlob config8 now
      = Json.obj
          [("version", .str schemaVersion),
           ("config", Json.obj
              [("count", Json.num 5), ("upperCase", Json.bool true),
               ("theme", Json.str "dark")]),
           ("lastUsed", .str now)] ∧
    loadPreferences true (savePreferences true stringify config8 now).1 parse = delta8 := by
  refine ⟨rfl, rfl, ?_⟩
  show loadPreferences true (some (stringify (storedBlob config8 now))) parse = delta8
  unfold loadPreferences
  rw [if_neg (by decide : ¬ ((true : Bool) = false))]
  show (if stringify (storedBlob config8 now) = "" then ConfigDelta.empty
        else match parse (stringify (storedBlob config8 now)) with
          | .error _ => ConfigDelta.empty
          | .ok j => validateAndMigrate (configOrEmpty j)) = delta8
  rw [if_neg hne, hrt]
  rfl

/-- Witness for C8 with a concrete round-tripping stringify/parse pair. -/
theorem c8_witness :
    loadPreferences true (savePreferences true (fun _ => "s") config8 "t").1
        (fun _ => .ok (storedBlob config8 "t")) = delta8 :=
  (c8_roundtrip (fun _ => "s") (fun _ => .ok (storedBlob config8 "t")) "t" rfl
    (by decide)).2.2

/-! ## Monitor lemmas -/

theorem find_map_set (m : List (String × Nat)) (k : String) (v : Nat)
    (hany : m.any (fun p => p.1 == k) = true) :
    (m.map (fun p => if p.1 == k then (k, v) else p)).find? (fun p => p.1 == k)
      = some (k, v) := by
  induction m with
  | nil => simp at hany
  | cons p rest ih =>
    by_cases hp : (p.1 == k) = true
    · have h1 : (if (p.1 == k) = true then (k, v) else p) = (k, v) := if_pos hp
      rw [List.map_cons, h1, List.find?_cons]
      simp
    · have hr : rest.any (fun q => q.1 == k) = true := by
        simp only [List.any_cons, Bool.or_eq_true] at hany
        tauto
      have h1 : (if (p.1 == k) = true then (k, v) else p) = p := if_neg hp
      rw [List.map_cons, h1, List.find?_cons]
      rw [show (p.1 == k) = false from by simpa using hp]
      exact ih hr

theorem find_append_self (m : List (String × Nat)) (k : String) (v : Nat)
    (hnone : m.find? (fun p => p.1 == k) = none) :
    (m ++ [(k, v)]).find? (fun p => p.1 == k) = some (k, v) := by
  induction m with
  | nil => simp [List.find?_cons]
  | cons p rest ih =>
    rw [List.find?_eq_none] at hnone
    have hp : (p.1 == k) = false := by
      have := hnone p (by simp)
      simpa using this
    have hrest : rest.find? (fun p => p.1 == k) = none := by
      rw [List.find?_eq_none]
      intro x hx
      exact hnone x (by simp [hx])
    rw [List.cons_append, List.find?_cons, hp]
    exact ih hrest

/-- After `Map.set(key, v)`, `Map.get(key) || 0` yields `v`. -/
theorem mapGetD_mapSet (m : List (String × Nat)) (k : String) (v : Nat) :
    mapGetD (mapSet m k v) k = v := by
  have h : (mapSet m k v).find? (fun p => p.1 == k) = some (k, v) := by
    unfold mapSet
    split
    · rename_i hany
      exact find_map_set m k v hany
    · rename_i hany
      apply find_append_self
      rw [List.find?_eq_none]
      intro x hx hpx
      exact hany (List.any_eq_true.mpr ⟨x, hx, hpx⟩)
  unfold mapGetD
  rw [h]

/-- Every operation class has its warning threshold strictly below its
error threshold. -/
theorem opClass_wlt (op : String) :
    (opClassOf op).warningThreshold < (opClassOf op).errorThreshold := by
  simp only [opClassOf]
  split_ifs <;> norm_num

/-- A slow (but not critical) sample with the consecutive counter still
below the threshold records no alert and increments the counter. -/
theorem checkAlerts_slow_noalert (s : MonitorState) (op : String) (d : ℚ)
    (hw : (opClassOf op).warningThreshold ≤ d) (he : d < (opClassOf op).errorThreshold)
    (hc : mapGetD s.consecutiveFailures (opClassOf op).operationName + 1
        < consecutiveThreshold) :
    checkPerformanceAlerts s op d
      = { alerts := s.alerts
          consecutiveFailures := mapSet s.consecutiveFailures
            (opClassOf op).operationName
            (mapGetD s.consecutiveFailures (opClassOf op).operationName + 1) } := by
  simp only [checkPerformanceAlerts]
  rw [if_pos hw, if_neg (by push_neg; exact ⟨he, by omega⟩)]

/-- A slow (but not critical) sample that brings the consecutive counter
to the threshold records a warning alert. -/
theorem checkAlerts_slow_alert (s : MonitorState) (op : String) (d : ℚ)
    (hw : (opClassOf op).warningThreshold ≤ d) (he : d < (opClassOf op).errorThreshold)
    (hc : mapGetD s.consecutiveFailures (opClassOf op).operationName + 1
        ≥ consecutiveThreshold) :
    checkPerformanceAlerts s op d
      = { alerts := addAlert s.alerts
            { type := .warning
              operation := (opClassOf op).operationName
              message := (opClassOf op).warningRec
              currentValue := d
              threshold := (opClassOf op).warningThreshold }
          consecutiveFailures := mapSet s.consecutiveFailures
            (opClassOf op).operationName
            (mapGetD s.consecutiveFailures (opClassOf op).operationName + 1) } := by
  simp only [checkPerformanceAlerts]
  rw [if_pos hw, if_pos (Or.inr hc)]
  simp only [if_neg (not_le.mpr he)]

/-- A critical sample records an error alert immediately, whatever the
counter. -/
theorem checkAlerts_critical (s : MonitorState) (op : String) (d : ℚ)
    (he : (opClassOf op).errorThreshold ≤ d) :
    checkPerformanceAlerts s op d
      = { alerts := addAlert s.alerts
            { type := .error
              operation := (opClassOf op).operationName
              message := (opClassOf op).errorRec
              currentValue := d
              threshold := (opClassOf op).errorThreshold }
          consecutiveFailures := mapSet s.consecutiveFailures
            (opClassOf op).operationName
            (mapGetD s.consecutiveFailures (opClassOf op).operationName + 1) } := by
  have hw : (opClassOf op).warningThreshold ≤ d := le_trans (le_of_lt (opClass_wlt op)) he
  simp only [checkPerformanceAlerts]
  rw [if_pos hw, if_pos (Or.inl he)]
  simp only [if_pos he]

/-- A sample below the warning threshold records nothing and resets the
counter to 0. -/
theorem checkAlerts_fast (s : MonitorState) (op : String) (d : ℚ)
    (hf : d < (opClassOf op).warningThreshold) :
    checkPerformanceAlerts s op d
      = { alerts := s.alerts
          consecutiveFailures := mapSet s.consecutiveFailures
            (opClassOf op).operationName 0 } := by
  simp only [checkPerformanceAlerts]
  rw [if_neg (not_le.mpr hf)]

theorem mem_drop_last {α : Type} (l : List α) (x : α) (d : Nat) (hd : d ≤ l.length) :
    x ∈ (l ++ [x]).drop d := by
  rw [List.drop_append_of_le_length hd]
  exact List.mem_append.mpr (Or.inr (by simp))

/-- A freshly added alert is among the `limit ≥ 1` most recent ones. -/
theorem mem_getAlerts_addAlert (A : List PerformanceAlert) (a : PerformanceAlert)
    (limit : Nat) (hl : 1 ≤ limit) : a ∈ getAlerts (addAlert A a) limit := by
  simp only [getAlerts, addAlert]
  rw [List.mem_reverse]
  split
  · rename_i hlong
    rw [List.drop_append_of_le_length (by simp at hlong ⊢; try omega)]
    apply mem_drop_last
    simp
    try omega
  · apply mem_drop_last
    simp
    try omega

/-- The health status only reads the alert history. -/
theorem getHealthStatus_congr {s1 s2 : MonitorState} (h : s1.alerts = s2.alerts) :
    getHealthStatus s1 = getHealthStatus s2 := by
  unfold getHealthStatus
  rw [h]

/-- An error alert among the last three makes the status critical. -/
theorem getHealthStatus_error (s : MonitorState) (a : PerformanceAlert)
    (ha : a ∈ getAlerts s.alerts 3) (hat : a.type = .error) :
    (getHealthStatus s).1 = .critical := by
  simp only [getHealthStatus]
  rw [if_pos (List.any_eq_true.mpr ⟨a, ha, by simp [hat]⟩)]

/-! ## Claim C9 -/

/-- C9 counterexample: after three consecutive warning-range samples
(50ms on the generation class, warning 50 / error 100) a warning alert is
recorded; the claim says a following fast sample (10ms, below the
warning threshold) makes the health recover to `good` at once, but
`getHealthStatus` still aggregates the last three recorded alerts and
reports `warning`. -/
theorem c9_counterexample :
    (getHealthStatus (checkPerformanceAlerts (checkPerformanceAlerts
        (checkPerformanceAlerts (checkPerformanceAlerts ⟨[], []⟩ "uuidGeneration" 50)
          "uuidGeneration" 50) "uuidGeneration" 50) "uuidGeneration" 10)).1
      = .warning ∧
    (10 : ℚ) < (opClassOf "uuidGeneration").warningThreshold := by
  constructor
  · decide
  · decide

/-- C9 (amended): over the sample-recording step, with a fresh
consecutive counter: a single slow sample (at or above warning, below
error) records no alert; three consecutive such samples record a warning
alert on the third; a sample at or above the error threshold records an
error alert immediately and makes the health critical; and a sample
below the warning threshold resets the counter to 0 and records nothing
— but the health status, which aggregates the last three recorded
alerts, is unchanged by it rather than recovering to good. -/
theorem c9_monitor_amended (s : MonitorState) (op : String) (d1 d2 d3 dc df : ℚ)
    (hc0 : mapGetD s.consecutiveFailures (opClassOf op).operationName = 0)
    (h1w : (opClassOf op).warningThreshold ≤ d1) (h1e : d1 < (opClassOf op).errorThreshold)
    (h2w : (opClassOf op).warningThreshold ≤ d2) (h2e : d2 < (opClassOf op).errorThreshold)
    (h3w : (opClassOf op).warningThreshold ≤ d3) (h3e : d3 < (opClassOf op).errorThreshold)
    (hce : (opClassOf op).errorThreshold ≤ dc)
    (hfw : df < (opClassOf op).warningThreshold) :
    (checkPerformanceAlerts s op d1).alerts = s.alerts ∧
    (checkPerformanceAlerts (checkPerformanceAlerts
        (checkPerformanceAlerts s op d1) op d2) op d3).alerts
      = addAlert s.alerts
          { type := .warning
            operation := (opClassOf op).operationName
            message := (opClassOf op).warningRec
            currentValue := d3
            threshold := (opClassOf op).warningThreshold } ∧
    (checkPerformanceAlerts s op dc).alerts
      = addAlert s.alerts
          { type := .error
            operation := (opClassOf op).operationName
            message := (opClassOf op).errorRec
            currentValue := dc
            threshold := (opClassOf op).errorThreshold } ∧
    (getHealthStatus (checkPerformanceAlerts s op dc)).1 = .critical ∧
    (checkPerformanceAlerts s op df).alerts = s.alerts ∧
    mapGetD (checkPerformanceAlerts s op df).consecutiveFailures
        (opClassOf op).operationName = 0 ∧
    getHealthStatus (checkPerformanceAlerts s op df) = getHealthStatus s := by
  have hs1 := checkAlerts_slow_noalert s op d1 h1w h1e (by rw [hc0]; decide)
  have hc1 : mapGetD (checkPerformanceAlerts s op d1).consecutiveFailures
      (opClassOf op).operationName = 1 := by
    rw [hs1]
    simp [mapGetD_mapSet, hc0]
  have hs2 := checkAlerts_slow_noalert (checkPerformanceAlerts s op d1) op d2 h2w h2e
    (by rw [hc1]; decide)
  have hc2 : mapGetD (checkPerformanceAlerts (checkPerformanceAlerts s op d1) op
      d2).consecutiveFailures (opClassOf op).operationName = 2 := by
    rw [hs2]
    simp [mapGetD_mapSet, hc1]
  have hs3 := checkAlerts_slow_alert
    (checkPerformanceAlerts (checkPerformanceAlerts s op d1) op d2) op d3 h3w h3e
    (by rw [hc2]; decide)
  have hcrit := checkAlerts_critical s op dc hce
  have hfast := checkAlerts_fast s op df hfw
  refine ⟨by rw [hs1], ?_, by rw [hcrit], ?_, by rw [hfast], ?_, ?_⟩
  · rw [hs3]
    show addAlert (checkPerformanceAlerts (checkPerformanceAlerts s op d1) op d2).alerts _
      = addAlert s.alerts _
    rw [hs2]
    show addAlert (checkPerformanceAlerts s op d1).alerts _ = addAlert s.alerts _
    rw [hs1]
  · apply getHealthStatus_error _
      { type := .error
        operation := (opClassOf op).operationName
        message := (opClassOf op).errorRec
        currentValue := dc
        threshold := (opClassOf op).errorThreshold }
    · rw [show (checkPerformanceAlerts s op dc).alerts = addAlert s.alerts _ from by
        rw [hcrit]]
      exact mem_getAlerts_addAlert _ _ 3 (by norm_num)
    · rfl
  · rw [hfast]
    exact mapGetD_mapSet _ _ _
  · exact getHealthStatus_congr (by rw [hfast])

/-- Witness for C9 on the generation class (warning 50, error 100) with
concrete samples 60/60/60 (slow), 150 (critical) and 10 (fast), from the
empty monitor state. -/
theorem c9_witness :
    (checkPerformanceAlerts ⟨[], []⟩ "uuidGeneration" 60).alerts = [] ∧
    (getHealthStatus (checkPerformanceAlerts ⟨[], []⟩ "uuidGeneration" 150)).1
      = .critical :=
  ⟨(c9_monitor_amended ⟨[], []⟩ "uuidGeneration" 60 60 60 150 10 (by decide) (by decide)
      (by decide) (by decide) (by decide) (by decide) (by decide) (by decide) (by decide)).1,
   (c9_monitor_amended ⟨[], []⟩ "uuidGeneration" 60 60 60 150 10 (by decide) (by decide)
      (by decide) (by decide) (by decide) (by decide) (by decide) (by decide)
      (by decide)).2.2.2.1⟩

end QuickUUID
